import Mathlib

/-!
Shallow embedding of the customer-service agent workflow from
`src/customer_service_agent.ipynb` (LangGraph `StateGraph` over a `TypedDict`
state), together with proofs of the claims of the specification about it.

External collaborators (the Groq LLM behind classification and generation,
and the MongoDB store) are modelled as an abstract `Capabilities` record of
functions; the node functions, router, graph wiring and the executor walk are
translated from the notebook cells.
-/

namespace CustomerServiceAgent

/-- The `State` TypedDict of the notebook: `query`, `category`, `sentiment`,
`response`, all strings.  `graph.invoke({"query": query})` starts from a dict
carrying only `query`, so the other three keys are modelled as `Option String`
(`none` = key absent from the dict). -/
structure State where
  query : String
  category : Option String := none
  sentiment : Option String := none
  response : Option String := none
deriving Repr, DecidableEq

/-- The `QueryDetails` pydantic model: plain `str` fields, no enum constraint
and no validator — any string pair is accepted. -/
structure QueryDetails where
  sentiment : String
  category : String
deriving Repr, DecidableEq

/-- The external collaborators the notebook calls out to:
`classify` is the structured-output LLM chain inside
`get_sentiment_and_category`, `generate` is `llm.invoke(prompt).content`
inside `handle_queries`, and `store` is the MongoDB `insert_one` inside
`record_to_database` (`Except.ok` = inserted id, `Except.error` = the
message of the raised exception). -/
structure Capabilities where
  classify : String → QueryDetails
  generate : String → String
  store : State → Except String String

/-- A partial state update, as returned by a LangGraph node: a dict whose
keys are a subset of the keys of the state (`none` = key absent). -/
structure StateUpdate where
  query : Option String := none
  category : Option String := none
  sentiment : Option String := none
  response : Option String := none
deriving Repr, DecidableEq

/-- LangGraph merges the dict returned by a node into the state, key by key,
last value wins; a node returning `None` leaves the state unchanged. -/
def applyUpdate (s : State) (u : Option StateUpdate) : State :=
  match u with
  | none => s
  | some u =>
    { query := u.query.getD s.query
      category := match u.category with | some c => some c | none => s.category
      sentiment := match u.sentiment with | some v => some v | none => s.sentiment
      response := match u.response with | some r => some r | none => s.response }

/-- A node either raises (modelling a Python exception, e.g. `KeyError` on a
missing dict key), or returns a partial update (`none` = Python `None`). -/
abbrev NodeResult := Except String (Option StateUpdate)

/-- `get_sentiment_and_category`: delegates to the structured-output chain
and returns its `sentiment` and `category` fields verbatim as the update —
no validation of the returned values takes place. -/
def get_sentiment_and_category (cap : Capabilities) (state : State) : NodeResult :=
  let response := cap.classify state.query
  Except.ok (some { sentiment := some response.sentiment, category := some response.category })

/-- `route_query_from_sentiment`: reads `state["sentiment"]` (raising
`KeyError` if the key is absent), then `match`: the literal case
`"Negative"` returns `"escalate"`, the wildcard case returns
`"handle_queries"`. -/
def route_query_from_sentiment (state : State) : Except String String :=
  match state.sentiment with
  | none => Except.error "KeyError: sentiment"
  | some sentiment =>
    if sentiment = "Negative" then Except.ok "escalate"
    else Except.ok "handle_queries"

/-- The fixed escalation message of the `escalate` node. -/
def escalationMessage : String :=
  "This query has been escalated to a customer service representative due to its negative sentiment."

/-- `escalate`: no external call, returns the fixed message as `response`. -/
def escalate (_state : State) : NodeResult :=
  Except.ok (some { response := some escalationMessage })

/-- `handle_queries`: builds the f-string prompt from `state["category"]` and
`state["query"]` (raising `KeyError` if `category` is absent) and returns the
generator output as `response`. -/
def handle_queries (cap : Capabilities) (state : State) : NodeResult :=
  match state.category with
  | none => Except.error "KeyError: category"
  | some category =>
    let prompt := "Generate a " ++ category ++ " support response for the following query: \"" ++
      state.query ++ "\" , under 50 words."
    Except.ok (some { response := some (cap.generate prompt) })

/-- `record_to_database`: the whole body is inside `try`/`except Exception`;
on success it prints the inserted id, on failure it prints the error — in
both cases the function falls off the end and returns `None` (no state
update), and no exception escapes. -/
def record_to_database (cap : Capabilities) (state : State) : NodeResult :=
  match cap.store state with
  | Except.ok _inserted_id => Except.ok none
  | Except.error _e => Except.ok none

/-- The node names added with `builder.add_node`. -/
def nodeNames : List String :=
  ["get_sentiment_and_category", "escalate", "handle_queries", "record_to_database"]

/-- The unconditional edges added with `builder.add_edge`
(the LangGraph `START` is `"__start__"` and `END` is `"__end__"`). -/
def directEdges : List (String × String) :=
  [("__start__", "get_sentiment_and_category"),
   ("handle_queries", "record_to_database"),
   ("escalate", "record_to_database"),
   ("record_to_database", "__end__")]

/-- The candidate targets declared in `builder.add_conditional_edges`. -/
def conditionalCandidates : List String := ["escalate", "handle_queries"]

/-- Dispatch a node name to its implementation; `"__start__"` runs nothing. -/
def runNode (cap : Capabilities) (name : String) (state : State) : NodeResult :=
  if name = "__start__" then Except.ok none
  else if name = "get_sentiment_and_category" then get_sentiment_and_category cap state
  else if name = "escalate" then escalate state
  else if name = "handle_queries" then handle_queries cap state
  else if name = "record_to_database" then record_to_database cap state
  else Except.error ("unknown node: " ++ name)

/-- Edge following: `get_sentiment_and_category` has the conditional edge
bound to `route_query_from_sentiment` (invoked on the post-update state, and
checked against the declared candidate list); every other node follows its
unconditional edge. -/
def nextNode (state : State) (current : String) : Except String String :=
  if current = "get_sentiment_and_category" then
    match route_query_from_sentiment state with
    | Except.error e => Except.error e
    | Except.ok target =>
      if target ∈ conditionalCandidates then Except.ok target
      else Except.error ("RoutingError: " ++ target)
  else
    match directEdges.find? (fun e => e.1 = current) with
    | some e => Except.ok e.2
    | none => Except.error ("no outgoing edge: " ++ current)

/-- The executor walk, with the LangGraph bounded-step cycle guard (the
`recursion_limit`, 25 by default): starting from `"__start__"`, run the
current node, merge its update, follow the (possibly conditional) edge, and
stop at `"__end__"`.  Returns the list of visited configurations — each node
name paired with the accumulated state on arrival there — and the final
state. -/
def executeAux (cap : Capabilities) :
    Nat → String → State → List (String × State) →
    Except String (List (String × State) × State)
  | 0, _, _, _ => Except.error "GraphRecursionError: recursion limit reached"
  | Nat.succ fuel, current, state, visited =>
    if current = "__end__" then Except.ok (visited ++ [(current, state)], state)
    else
      match runNode cap current state with
      | Except.error e => Except.error e
      | Except.ok upd =>
        let merged := applyUpdate state upd
        match nextNode merged current with
        | Except.error e => Except.error e
        | Except.ok nxt => executeAux cap fuel nxt merged (visited ++ [(current, state)])

/-- The LangGraph default `recursion_limit`. -/
def recursionLimit : Nat := 25

/-- `graph.invoke` from an arbitrary initial state. -/
def execute (cap : Capabilities) (s0 : State) :
    Except String (List (String × State) × State) :=
  executeAux cap recursionLimit "__start__" s0 []

/-- The initial state `run_agent` builds: `{"query": query}`, the other
three keys absent. -/
def initialState (query : String) : State := { query := query }

/-- `run_agent`: `graph.invoke({"query": query})`. -/
def graph_invoke (cap : Capabilities) (query : String) :
    Except String (List (String × State) × State) :=
  execute cap (initialState query)

/-- The state after the classification node has merged its update into `s0`. -/
def afterClassify (cap : Capabilities) (s0 : State) : State :=
  { s0 with
    sentiment := some (cap.classify s0.query).sentiment
    category := some (cap.classify s0.query).category }

/-- The prompt `handle_queries` builds. -/
def handlePrompt (category query : String) : String :=
  "Generate a " ++ category ++ " support response for the following query: \"" ++
    query ++ "\" , under 50 words."

/-- The final state of a run routed through `escalate`. -/
def finalEscalate (cap : Capabilities) (s0 : State) : State :=
  { afterClassify cap s0 with response := some escalationMessage }

/-- The final state of a run routed through `handle_queries`. -/
def finalHandle (cap : Capabilities) (s0 : State) : State :=
  { afterClassify cap s0 with
    response := some (cap.generate (handlePrompt (cap.classify s0.query).category s0.query)) }

theorem record_to_database_eq (cap : Capabilities) (s : State) :
    record_to_database cap s = Except.ok none := by
  unfold record_to_database
  cases cap.store s <;> rfl

theorem execute_eq_escalate (cap : Capabilities) (s0 : State)
    (h : (cap.classify s0.query).sentiment = "Negative") :
    execute cap s0 =
      Except.ok ([("__start__", s0),
                  ("get_sentiment_and_category", s0),
                  ("escalate", afterClassify cap s0),
                  ("record_to_database", finalEscalate cap s0),
                  ("__end__", finalEscalate cap s0)],
                 finalEscalate cap s0) := by
  simp [execute, recursionLimit, executeAux, runNode, nextNode,
        get_sentiment_and_category, escalate, handle_queries,
        record_to_database_eq, applyUpdate, route_query_from_sentiment,
        conditionalCandidates, directEdges, List.find?, h,
        afterClassify, finalEscalate, escalationMessage]

theorem execute_eq_handle (cap : Capabilities) (s0 : State)
    (h : (cap.classify s0.query).sentiment ≠ "Negative") :
    execute cap s0 =
      Except.ok ([("__start__", s0),
                  ("get_sentiment_and_category", s0),
                  ("handle_queries", afterClassify cap s0),
                  ("record_to_database", finalHandle cap s0),
                  ("__end__", finalHandle cap s0)],
                 finalHandle cap s0) := by
  simp [execute, recursionLimit, executeAux, runNode, nextNode,
        get_sentiment_and_category, escalate, handle_queries,
        record_to_database_eq, applyUpdate, route_query_from_sentiment,
        conditionalCandidates, directEdges, List.find?, h,
        afterClassify, finalHandle, handlePrompt, escalationMessage]

/-- A concrete capability instance: classifier always answers
`Neutral`/`General`, generator always answers a fixed reply, store succeeds. -/
def capNeutralOk : Capabilities :=
  { classify := fun _ => { sentiment := "Neutral", category := "General" }
    generate := fun _ => "generated reply"
    store := fun _ => Except.ok "doc-id-0" }

/-- A concrete capability instance whose classifier always answers
`Negative`/`General`. -/
def capNegativeOk : Capabilities :=
  { classify := fun _ => { sentiment := "Negative", category := "General" }
    generate := fun _ => "generated reply"
    store := fun _ => Except.ok "doc-id-1" }

/-- A concrete capability instance whose classifier returns the out-of-domain
category `Shipping` (with in-domain sentiment `Neutral`). -/
def capShipping : Capabilities :=
  { classify := fun _ => { sentiment := "Neutral", category := "Shipping" }
    generate := fun _ => "generated reply"
    store := fun _ => Except.ok "doc-id-2" }

/-- Like `capNeutralOk` but the store write raises. -/
def capStoreFail : Capabilities :=
  { capNeutralOk with store := fun _ => Except.error "ServerSelectionTimeoutError" }

/-- C1: the Router is a pure function of the `sentiment` field: it returns
`"escalate"` exactly when the sentiment equals `"Negative"`, and
`"handle_queries"` for every other sentiment value. -/
theorem router_policy (s : State) (v : String) (h : s.sentiment = some v) :
    route_query_from_sentiment s =
      Except.ok (if v = "Negative" then "escalate" else "handle_queries") := by
  simp only [route_query_from_sentiment, h, apply_ite Except.ok]

/-- Witness for C1 at a concrete state with sentiment `"Negative"`. -/
theorem router_policy_witness :
    route_query_from_sentiment { query := "q", sentiment := some "Negative" } =
      Except.ok (if "Negative" = "Negative" then "escalate" else "handle_queries") :=
  router_policy { query := "q", sentiment := some "Negative" } "Negative" rfl

/-- C9: routing is deterministic with no hidden state — two states with equal
sentiment fields are routed identically. -/
theorem router_deterministic (s t : State) (h : s.sentiment = t.sentiment) :
    route_query_from_sentiment s = route_query_from_sentiment t := by
  unfold route_query_from_sentiment
  rw [h]

/-- Witness for C9 at two concrete states agreeing on sentiment only. -/
theorem router_deterministic_witness :
    route_query_from_sentiment { query := "a", sentiment := some "Positive" } =
      route_query_from_sentiment
        { query := "b", category := some "Billing", sentiment := some "Positive",
          response := some "r" } :=
  router_deterministic _ _ rfl

/-- C2: in every run whose classified sentiment is `"Negative"`, the final
response is exactly the fixed escalation message and `handle_queries` is never
invoked; moreover, in every run whatsoever the `escalate` and
`handle_queries` branches are never both taken. -/
theorem negative_runs_escalate (cap : Capabilities) (s0 : State)
    (h : (cap.classify s0.query).sentiment = "Negative") :
    ∃ cfgs final, execute cap s0 = Except.ok (cfgs, final) ∧
      final.response = some escalationMessage ∧
      (∀ c ∈ cfgs, c.1 ≠ "handle_queries") ∧
      (∀ (cap2 : Capabilities) (s2 : State) (cfgs2 : List (String × State)) (final2 : State),
        execute cap2 s2 = Except.ok (cfgs2, final2) →
        ¬ ("escalate" ∈ cfgs2.map Prod.fst ∧ "handle_queries" ∈ cfgs2.map Prod.fst)) := by
  refine ⟨_, _, execute_eq_escalate cap s0 h, rfl, ?_, ?_⟩
  · intro c hc
    simp only [List.mem_cons, List.not_mem_nil, or_false] at hc
    rcases hc with h1 | h1 | h1 | h1 | h1 <;> subst h1 <;> simp
  · intro cap2 s2 cfgs2 final2 hrun
    by_cases h2 : (cap2.classify s2.query).sentiment = "Negative"
    · rw [execute_eq_escalate cap2 s2 h2] at hrun
      simp only [Except.ok.injEq, Prod.mk.injEq] at hrun
      rcases hrun with ⟨hl, _⟩
      subst hl
      simp
    · rw [execute_eq_handle cap2 s2 h2] at hrun
      simp only [Except.ok.injEq, Prod.mk.injEq] at hrun
      rcases hrun with ⟨hl, _⟩
      subst hl
      simp

/-- Witness for C2: a run of `capNegativeOk` on a concrete query. -/
theorem negative_runs_escalate_witness :
    ∃ cfgs final,
      execute capNegativeOk (initialState "Terrible service, never again.") =
        Except.ok (cfgs, final) ∧
      final.response = some escalationMessage ∧
      (∀ c ∈ cfgs, c.1 ≠ "handle_queries") ∧
      (∀ (cap2 : Capabilities) (s2 : State) (cfgs2 : List (String × State)) (final2 : State),
        execute cap2 s2 = Except.ok (cfgs2, final2) →
        ¬ ("escalate" ∈ cfgs2.map Prod.fst ∧ "handle_queries" ∈ cfgs2.map Prod.fst)) :=
  negative_runs_escalate capNegativeOk (initialState "Terrible service, never again.") rfl

/-- C3 counterexample: the classifier returns the out-of-domain category
`"Shipping"`; the run does not fail — there is no `InvalidClassificationError`
anywhere in the code — it routes to `handle_queries`, completes, and carries
`"Shipping"` into the final state. -/
theorem out_of_domain_category_accepted :
    graph_invoke capShipping "Where is my package?" =
      Except.ok
        ([("__start__", { query := "Where is my package?" }),
          ("get_sentiment_and_category", { query := "Where is my package?" }),
          ("handle_queries",
           { query := "Where is my package?", category := some "Shipping",
             sentiment := some "Neutral" }),
          ("record_to_database",
           { query := "Where is my package?", category := some "Shipping",
             sentiment := some "Neutral", response := some "generated reply" }),
          ("__end__",
           { query := "Where is my package?", category := some "Shipping",
             sentiment := some "Neutral", response := some "generated reply" })],
         { query := "Where is my package?", category := some "Shipping",
           sentiment := some "Neutral", response := some "generated reply" }) := by
  rw [graph_invoke, execute_eq_handle capShipping (initialState "Where is my package?")
    (by decide)]
  rfl

/-- C3 amended: the engine performs no validation of the classifier output —
for every capability and initial state the run completes successfully, the
returned sentiment and category are accepted verbatim into the final state
(no rejection, coercion, or defaulting), and routing takes place (the
persistence node is reached). -/
theorem classifier_output_accepted_verbatim (cap : Capabilities) (s0 : State) :
    ∃ cfgs final, execute cap s0 = Except.ok (cfgs, final) ∧
      final.sentiment = some (cap.classify s0.query).sentiment ∧
      final.category = some (cap.classify s0.query).category ∧
      "record_to_database" ∈ cfgs.map Prod.fst := by
  by_cases h : (cap.classify s0.query).sentiment = "Negative"
  · exact ⟨_, _, execute_eq_escalate cap s0 h, rfl, rfl, by simp⟩
  · exact ⟨_, _, execute_eq_handle cap s0 h, rfl, rfl, by simp⟩

/-- C4: a store failure during persistence is contained — the run result does
not depend on the store capability at all, so a run whose store write fails
returns the same final state (and the same visited configurations) as the
same run with a succeeding store, and the run still succeeds. -/
theorem store_failure_isolated (cap1 cap2 : Capabilities) (s0 : State)
    (hc : cap1.classify = cap2.classify) (hg : cap1.generate = cap2.generate) :
    execute cap1 s0 = execute cap2 s0 ∧
    ∃ cfgs final, execute cap1 s0 = Except.ok (cfgs, final) := by
  constructor
  · by_cases h : (cap1.classify s0.query).sentiment = "Negative"
    · rw [execute_eq_escalate cap1 s0 h,
          execute_eq_escalate cap2 s0 (by rw [← hc]; exact h)]
      simp [finalEscalate, afterClassify, hc]
    · rw [execute_eq_handle cap1 s0 h,
          execute_eq_handle cap2 s0 (by rw [← hc]; exact h)]
      simp [finalHandle, afterClassify, handlePrompt, hc, hg]
  · by_cases h : (cap1.classify s0.query).sentiment = "Negative"
    · exact ⟨_, _, execute_eq_escalate cap1 s0 h⟩
    · exact ⟨_, _, execute_eq_handle cap1 s0 h⟩

/-- Witness for C4: `capStoreFail` differs from `capNeutralOk` only in its
(raising) store capability, and the run result is unchanged. -/
theorem store_failure_isolated_witness :
    execute capStoreFail (initialState "What are your business hours?") =
      execute capNeutralOk (initialState "What are your business hours?") ∧
    ∃ cfgs final,
      execute capStoreFail (initialState "What are your business hours?") =
        Except.ok (cfgs, final) :=
  store_failure_isolated capStoreFail capNeutralOk
    (initialState "What are your business hours?") rfl rfl

/-- C5: every run from `graph.invoke` with only a query completes, visits the
terminal persistence node exactly once, ends with `response` set, and along
the walk the accumulated state carries a `response` exactly at the
configurations where the executor has reached the terminal step
(`record_to_database`, and the `"__end__"` marker after it). -/
theorem response_iff_terminal (cap : Capabilities) (q : String) :
    ∃ cfgs final, graph_invoke cap q = Except.ok (cfgs, final) ∧
      final.response.isSome = true ∧
      (cfgs.map Prod.fst).count "record_to_database" = 1 ∧
      ∀ c ∈ cfgs, (c.2.response.isSome = true ↔
        (c.1 = "record_to_database" ∨ c.1 = "__end__")) := by
  unfold graph_invoke
  by_cases h : (cap.classify (initialState q).query).sentiment = "Negative"
  · refine ⟨_, _, execute_eq_escalate cap (initialState q) h, rfl, by simp, ?_⟩
    intro c hc
    simp only [List.mem_cons, List.not_mem_nil, or_false] at hc
    rcases hc with h1 | h1 | h1 | h1 | h1 <;> subst h1 <;>
      simp [initialState, afterClassify, finalEscalate]
  · refine ⟨_, _, execute_eq_handle cap (initialState q) h, rfl, by simp, ?_⟩
    intro c hc
    simp only [List.mem_cons, List.not_mem_nil, or_false] at hc
    rcases hc with h1 | h1 | h1 | h1 | h1 <;> subst h1 <;>
      simp [initialState, afterClassify, finalHandle]

/-- Witness for C5 at a concrete capability and query. -/
theorem response_iff_terminal_witness :
    ∃ cfgs final,
      graph_invoke capNeutralOk "What are your business hours?" =
        Except.ok (cfgs, final) ∧
      final.response.isSome = true ∧
      (cfgs.map Prod.fst).count "record_to_database" = 1 ∧
      ∀ c ∈ cfgs, (c.2.response.isSome = true ↔
        (c.1 = "record_to_database" ∨ c.1 = "__end__")) :=
  response_iff_terminal capNeutralOk "What are your business hours?"

/-- C6 counterexample: an execution whose initial state has an empty query
does not fail — there is no `InvalidInputError` and no input validation
anywhere in the code — it runs the full walk and produces a response. -/
theorem empty_query_not_rejected :
    graph_invoke capNeutralOk "" =
      Except.ok
        ([("__start__", { query := "" }),
          ("get_sentiment_and_category", { query := "" }),
          ("handle_queries",
           { query := "", category := some "General", sentiment := some "Neutral" }),
          ("record_to_database",
           { query := "", category := some "General", sentiment := some "Neutral",
             response := some "generated reply" }),
          ("__end__",
           { query := "", category := some "General", sentiment := some "Neutral",
             response := some "generated reply" })],
         { query := "", category := some "General", sentiment := some "Neutral",
           response := some "generated reply" }) := by
  rw [graph_invoke, execute_eq_handle capNeutralOk (initialState "") (by decide)]
  rfl

/-- C6 amended: the code performs no input validation at entry — an execution
whose initial state has an empty query is processed like any other query,
completes the walk, and produces a final state with a response. -/
theorem empty_query_processed (cap : Capabilities) :
    ∃ cfgs final, graph_invoke cap "" = Except.ok (cfgs, final) ∧
      final.query = "" ∧ final.response.isSome = true := by
  unfold graph_invoke
  by_cases h : (cap.classify (initialState "").query).sentiment = "Negative"
  · exact ⟨_, _, execute_eq_escalate cap (initialState "") h, rfl, rfl⟩
  · exact ⟨_, _, execute_eq_handle cap (initialState "") h, rfl, rfl⟩

/-- C7: `query` is immutable — no step writes it, so the final state and every
intermediate state of a run carry exactly the query of the initial state. -/
theorem query_immutable (cap : Capabilities) (s0 : State) :
    ∃ cfgs final, execute cap s0 = Except.ok (cfgs, final) ∧
      final.query = s0.query ∧ ∀ c ∈ cfgs, c.2.query = s0.query := by
  by_cases h : (cap.classify s0.query).sentiment = "Negative"
  · refine ⟨_, _, execute_eq_escalate cap s0 h, rfl, ?_⟩
    intro c hc
    simp only [List.mem_cons, List.not_mem_nil, or_false] at hc
    rcases hc with h1 | h1 | h1 | h1 | h1 <;> subst h1 <;> rfl
  · refine ⟨_, _, execute_eq_handle cap s0 h, rfl, ?_⟩
    intro c hc
    simp only [List.mem_cons, List.not_mem_nil, or_false] at hc
    rcases hc with h1 | h1 | h1 | h1 | h1 <;> subst h1 <;> rfl

/-- Witness for C7 at a concrete capability and initial state. -/
theorem query_immutable_witness :
    ∃ cfgs final,
      execute capNegativeOk (initialState "The product arrived broken.") =
        Except.ok (cfgs, final) ∧
      final.query = (initialState "The product arrived broken.").query ∧
      ∀ c ∈ cfgs, c.2.query = (initialState "The product arrived broken.").query :=
  query_immutable capNegativeOk (initialState "The product arrived broken.")

/-- C8: for every capability and initial state the walk terminates after
exactly three executed steps — classification, then exactly one of
`escalate`/`handle_queries`, then persistence — and the bounded-step cycle
guard is never tripped. -/
theorem walk_terminates_in_three_steps (cap : Capabilities) (s0 : State) :
    ∃ cfgs branch s1 s2,
      execute cap s0 = Except.ok (cfgs, s2) ∧
      cfgs = [("__start__", s0), ("get_sentiment_and_category", s0), (branch, s1),
              ("record_to_database", s2), ("__end__", s2)] ∧
      (branch = "escalate" ∨ branch = "handle_queries") ∧
      ((cfgs.map Prod.fst).filter nodeNames.contains).length = 3 ∧
      execute cap s0 ≠ Except.error "GraphRecursionError: recursion limit reached" := by
  by_cases h : (cap.classify s0.query).sentiment = "Negative"
  · refine ⟨_, "escalate", afterClassify cap s0, finalEscalate cap s0,
      execute_eq_escalate cap s0 h, rfl, Or.inl rfl, by simp [nodeNames], ?_⟩
    rw [execute_eq_escalate cap s0 h]
    simp
  · refine ⟨_, "handle_queries", afterClassify cap s0, finalHandle cap s0,
      execute_eq_handle cap s0 h, rfl, Or.inr rfl, by simp [nodeNames], ?_⟩
    rw [execute_eq_handle cap s0 h]
    simp

/-- C10: the persistence node returns no update (`None`) whether the store
write succeeds or raises, so the final state handed back to the caller is
exactly the state as it stood on arrival at `record_to_database`. -/
theorem persistence_returns_no_update (cap : Capabilities) (s0 : State) :
    record_to_database cap s0 = Except.ok none ∧
    ∃ cfgs final, execute cap s0 = Except.ok (cfgs, final) ∧
      ("record_to_database", final) ∈ cfgs := by
  refine ⟨record_to_database_eq cap s0, ?_⟩
  by_cases h : (cap.classify s0.query).sentiment = "Negative"
  · exact ⟨_, _, execute_eq_escalate cap s0 h, by simp⟩
  · exact ⟨_, _, execute_eq_handle cap s0 h, by simp⟩

/-- Witness for the amended C3 at the out-of-domain capability. -/
theorem classifier_output_accepted_verbatim_witness :
    ∃ cfgs final,
      execute capShipping (initialState "Where is my package?") =
        Except.ok (cfgs, final) ∧
      final.sentiment =
        some (capShipping.classify (initialState "Where is my package?").query).sentiment ∧
      final.category =
        some (capShipping.classify (initialState "Where is my package?").query).category ∧
      "record_to_database" ∈ cfgs.map Prod.fst :=
  classifier_output_accepted_verbatim capShipping (initialState "Where is my package?")

/-- Witness for the amended C6 at a concrete capability. -/
theorem empty_query_processed_witness :
    ∃ cfgs final, graph_invoke capNegativeOk "" = Except.ok (cfgs, final) ∧
      final.query = "" ∧ final.response.isSome = true :=
  empty_query_processed capNegativeOk

/-- Witness for C8 at a concrete capability and initial state. -/
theorem walk_terminates_in_three_steps_witness :
    ∃ cfgs branch s1 s2,
      execute capNeutralOk (initialState "What are your business hours?") =
        Except.ok (cfgs, s2) ∧
      cfgs = [("__start__", initialState "What are your business hours?"),
              ("get_sentiment_and_category", initialState "What are your business hours?"),
              (branch, s1), ("record_to_database", s2), ("__end__", s2)] ∧
      (branch = "escalate" ∨ branch = "handle_queries") ∧
      ((cfgs.map Prod.fst).filter nodeNames.contains).length = 3 ∧
      execute capNeutralOk (initialState "What are your business hours?") ≠
        Except.error "GraphRecursionError: recursion limit reached" :=
  walk_terminates_in_three_steps capNeutralOk (initialState "What are your business hours?")

/-- Witness for C10 at a concrete capability (with a raising store) and state. -/
theorem persistence_returns_no_update_witness :
    record_to_database capStoreFail (initialState "Is my invoice ready?") = Except.ok none ∧
    ∃ cfgs final,
      execute capStoreFail (initialState "Is my invoice ready?") =
        Except.ok (cfgs, final) ∧
      ("record_to_database", final) ∈ cfgs :=
  persistence_returns_no_update capStoreFail (initialState "Is my invoice ready?")

end CustomerServiceAgent
